import Mathlib

/-!
Shallow embedding of the unified WhatsApp MCP coordination core
(`unified-mcp/backends/health.py`, `unified-mcp/routing.py`, `unified-mcp/sync.py`).

Conventions used throughout:
* Wall-clock timestamps (`datetime.now()`) are abstract `Nat` values supplied by the
  caller; measured response times (Python floats) are modelled as `Rat`.
* Network effects are explicit: each health probe consumes a `ProbeOutcome` describing
  how the underlying HTTP request ended, and the sync service consumes a `SyncEnv`
  describing how each of its HTTP calls ended.  Within one modelled scenario the
  probe outcome per backend is held fixed (stable network conditions).
* Mutable object state (`HealthMonitor` counters and caches, `Router` round-robin
  counter) is threaded explicitly through the functions that mutate it.
-/

/-- Health record for a single backend (`health.py`, dataclass `BackendHealth`). -/
structure BackendHealth where
  backend : String
  status : String
  whatsapp_connected : Bool
  database_ok : Bool
  uptime_seconds : Int
  last_check : Nat
  response_time_ms : Rat
  error_message : Option String := none
  details : List (String × String) := []
deriving Repr, DecidableEq

/-- Aggregated health of both backends (`health.py`, dataclass `OverallHealth`). -/
structure OverallHealth where
  status : String
  primary_backend : String
  go_backend : Option BackendHealth
  baileys_backend : Option BackendHealth
  last_check : Nat
  available_backends : List String
deriving Repr, DecidableEq

/-- Parsed JSON body of a health endpoint response; a `none` field is an absent key,
so the corresponding `data.get(key, default)` falls back to its default. -/
structure HealthBody where
  status : Option String := none
  whatsapp_connected : Option Bool := none
  connected : Option Bool := none
  database_ok : Option Bool := none
  uptime_seconds : Option Int := none
  uptime : Option Int := none
  details : Option (List (String × String)) := none
deriving Repr, DecidableEq

/-- Result of calling `response.json()` on a received HTTP response: either a parsed
body or a decode exception (whose stringified message is carried). -/
inductive BodyParse where
  | parsed (b : HealthBody)
  | decodeError (msg : String)
deriving Repr, DecidableEq

/-- Outcome of the HTTP GET issued by one health probe (`requests.get` in
`check_go_health` / `check_baileys_health`): a response with status code, measured
response time and body; a timeout exception; a connection-refused exception; or any
other exception (e.g. an SSL error), carrying its stringified message. -/
inductive ProbeOutcome where
  | response (statusCode : Nat) (responseTimeMs : Rat) (body : BodyParse)
  | timeout (responseTimeMs : Rat)
  | connectionRefused
  | otherError (msg : String)
deriving Repr, DecidableEq

/-- Fixed network environment for one modelled scenario: what each backend's health
probe returns, and the current wall-clock timestamp. -/
structure Env where
  goProbe : ProbeOutcome
  baileysProbe : ProbeOutcome
  now : Nat
deriving Repr, DecidableEq

/-- Mutable state of `HealthMonitor` (`health.py`, `HealthMonitor.__init__`). -/
structure MonitorState where
  last_go_health : Option BackendHealth := none
  last_baileys_health : Option BackendHealth := none
  go_failure_count : Nat := 0
  baileys_failure_count : Nat := 0
deriving Repr, DecidableEq

/-- The availability test `status in ["ok", "degraded"]` used throughout the source. -/
def availableStatus (s : String) : Bool :=
  s == "ok" || s == "degraded"

/-- `HealthMonitor.check_go_health` (`health.py` lines 62-154).  Returns the fresh
`BackendHealth` record and the updated monitor state (failure counter and
last-known-health cache). -/
def check_go_health (st : MonitorState) (probe : ProbeOutcome) (now : Nat) :
    BackendHealth × MonitorState :=
  match probe with
  | .response code t body =>
      if code = 200 then
        match body with
        | .parsed b =>
            let health : BackendHealth :=
              { backend := "go"
                status := b.status.getD "ok"
                whatsapp_connected := b.whatsapp_connected.getD false
                database_ok := b.database_ok.getD true
                uptime_seconds := b.uptime_seconds.getD 0
                last_check := now
                response_time_ms := t
                details := b.details.getD [] }
            (health, { st with go_failure_count := 0, last_go_health := some health })
        | .decodeError m =>
            ({ backend := "go", status := "error", whatsapp_connected := false,
               database_ok := false, uptime_seconds := 0, last_check := now,
               response_time_ms := 0, error_message := some m },
             { st with go_failure_count := st.go_failure_count + 1 })
      else
        ({ backend := "go", status := "error", whatsapp_connected := false,
           database_ok := false, uptime_seconds := 0, last_check := now,
           response_time_ms := t, error_message := some ("HTTP " ++ toString code) },
         { st with go_failure_count := st.go_failure_count + 1 })
  | .timeout t =>
      ({ backend := "go", status := "unreachable", whatsapp_connected := false,
         database_ok := false, uptime_seconds := 0, last_check := now,
         response_time_ms := t, error_message := some "Health check timeout" },
       { st with go_failure_count := st.go_failure_count + 1 })
  | .connectionRefused =>
      ({ backend := "go", status := "unreachable", whatsapp_connected := false,
         database_ok := false, uptime_seconds := 0, last_check := now,
         response_time_ms := 0, error_message := some "Connection refused" },
       { st with go_failure_count := st.go_failure_count + 1 })
  | .otherError m =>
      ({ backend := "go", status := "error", whatsapp_connected := false,
         database_ok := false, uptime_seconds := 0, last_check := now,
         response_time_ms := 0, error_message := some m },
       { st with go_failure_count := st.go_failure_count + 1 })

/-- `HealthMonitor.check_baileys_health` (`health.py` lines 156-249).  Identical to
the Go probe except for the two field-name fallbacks (`connected`, `uptime`). -/
def check_baileys_health (st : MonitorState) (probe : ProbeOutcome) (now : Nat) :
    BackendHealth × MonitorState :=
  match probe with
  | .response code t body =>
      if code = 200 then
        match body with
        | .parsed b =>
            let health : BackendHealth :=
              { backend := "baileys"
                status := b.status.getD "ok"
                whatsapp_connected := b.whatsapp_connected.getD (b.connected.getD false)
                database_ok := b.database_ok.getD true
                uptime_seconds := b.uptime_seconds.getD (b.uptime.getD 0)
                last_check := now
                response_time_ms := t
                details := b.details.getD [] }
            (health, { st with baileys_failure_count := 0, last_baileys_health := some health })
        | .decodeError m =>
            ({ backend := "baileys", status := "error", whatsapp_connected := false,
               database_ok := false, uptime_seconds := 0, last_check := now,
               response_time_ms := 0, error_message := some m },
             { st with baileys_failure_count := st.baileys_failure_count + 1 })
      else
        ({ backend := "baileys", status := "error", whatsapp_connected := false,
           database_ok := false, uptime_seconds := 0, last_check := now,
           response_time_ms := t, error_message := some ("HTTP " ++ toString code) },
         { st with baileys_failure_count := st.baileys_failure_count + 1 })
  | .timeout t =>
      ({ backend := "baileys", status := "unreachable", whatsapp_connected := false,
         database_ok := false, uptime_seconds := 0, last_check := now,
         response_time_ms := t, error_message := some "Health check timeout" },
       { st with baileys_failure_count := st.baileys_failure_count + 1 })
  | .connectionRefused =>
      ({ backend := "baileys", status := "unreachable", whatsapp_connected := false,
         database_ok := false, uptime_seconds := 0, last_check := now,
         response_time_ms := 0, error_message := some "Connection refused" },
       { st with baileys_failure_count := st.baileys_failure_count + 1 })
  | .otherError m =>
      ({ backend := "baileys", status := "error", whatsapp_connected := false,
         database_ok := false, uptime_seconds := 0, last_check := now,
         response_time_ms := 0, error_message := some m },
       { st with baileys_failure_count := st.baileys_failure_count + 1 })

/-- The `BackendHealth` produced for the Go backend in environment `env`; the record
returned by `check_go_health` does not depend on the monitor state. -/
def goHealth (env : Env) : BackendHealth :=
  (check_go_health {} env.goProbe env.now).1

/-- The `BackendHealth` produced for the Baileys backend in environment `env`. -/
def baileysHealth (env : Env) : BackendHealth :=
  (check_baileys_health {} env.baileysProbe env.now).1

/-- Status string of the Go backend health record in environment `env`. -/
def goStatus (env : Env) : String := (goHealth env).status

/-- Status string of the Baileys backend health record in environment `env`. -/
def baileysStatus (env : Env) : String := (baileysHealth env).status

/-- `HealthMonitor.check_all` (`health.py` lines 251-287): probe Go, then Baileys,
collect the available-backend list, choose a primary, and derive the overall status. -/
def check_all (env : Env) (st : MonitorState) : OverallHealth × MonitorState :=
  let g := check_go_health st env.goProbe env.now
  let b := check_baileys_health g.2 env.baileysProbe env.now
  let avail0 : List String := []
  let avail1 := if availableStatus g.1.status then avail0 ++ ["go"] else avail0
  let avail2 := if availableStatus b.1.status then avail1 ++ ["baileys"] else avail1
  let primary_backend :=
    if "go" ∈ avail2 then "go" else if "baileys" ∈ avail2 then "baileys" else "none"
  let overall_status :=
    if avail2.length = 2 then "ok" else if avail2.length = 1 then "degraded" else "error"
  ({ status := overall_status
     primary_backend := primary_backend
     go_backend := some g.1
     baileys_backend := some b.1
     last_check := env.now
     available_backends := avail2 }, b.2)

/-- `HealthMonitor.is_backend_available` (`health.py` lines 289-305): fresh probe of
the named backend, availability test on its status. -/
def is_backend_available (env : Env) (st : MonitorState) (backend : String) :
    Bool × MonitorState :=
  if backend = "go" then
    let g := check_go_health st env.goProbe env.now
    (availableStatus g.1.status, g.2)
  else if backend = "baileys" then
    let b := check_baileys_health st env.baileysProbe env.now
    (availableStatus b.1.status, b.2)
  else
    (false, st)

/-- `routing.py`, enum `OperationType` (lines 18-43). -/
inductive OperationType where
  | SEND_MESSAGE
  | SEND_FILE
  | SEND_AUDIO
  | MARK_AS_READ
  | DOWNLOAD_MEDIA
  | SYNC_FULL_HISTORY
  | SYNC_CHAT_HISTORY
  | LIST_COMMUNITIES
  | GET_COMMUNITY_GROUPS
  | MARK_COMMUNITY_AS_READ
  | SEARCH_CONTACTS
  | LIST_CONTACTS
  | LIST_CHATS
  | GET_CHAT
  | LIST_MESSAGES
deriving Repr, DecidableEq

/-- `routing.py`, enum `RoutingStrategy` (lines 46-52). -/
inductive RoutingStrategy where
  | PRIMARY_ONLY
  | PREFER_GO
  | PREFER_BAILEYS
  | ROUND_ROBIN
  | FASTEST
deriving Repr, DecidableEq

open OperationType in
/-- The per-operation strategy table built in `Router.__init__` (`routing.py`
lines 68-91), combined with the `dict.get(operation, PREFER_GO)` default of
`select_backend` line 162 (the table covers every operation, so the default
is never consulted). -/
def operation_strategies : OperationType → RoutingStrategy
  | SEND_MESSAGE => .PREFER_GO
  | SEND_FILE => .PREFER_GO
  | SEND_AUDIO => .PREFER_GO
  | MARK_AS_READ => .PREFER_GO
  | DOWNLOAD_MEDIA => .PREFER_GO
  | SYNC_FULL_HISTORY => .PREFER_BAILEYS
  | SYNC_CHAT_HISTORY => .PREFER_GO
  | LIST_COMMUNITIES => .PREFER_GO
  | GET_COMMUNITY_GROUPS => .PREFER_GO
  | MARK_COMMUNITY_AS_READ => .PREFER_GO
  | SEARCH_CONTACTS => .PREFER_GO
  | LIST_CONTACTS => .PREFER_GO
  | LIST_CHATS => .PREFER_GO
  | GET_CHAT => .PREFER_GO
  | LIST_MESSAGES => .PREFER_GO

/-- Mutable state of a `Router` instance (`routing.py`, `Router.__init__`): the
round-robin counter plus the health monitor it owns. -/
structure RouterState where
  monitor : MonitorState := {}
  round_robin_counter : Nat := 0
deriving Repr, DecidableEq

/-- `Router._select_with_preference` (`routing.py` lines 93-112). -/
def select_with_preference (preferred fallback : String) (available : List String) :
    Option String :=
  if preferred ∈ available then some preferred
  else if fallback ∈ available then some fallback
  else none

/-- `Router._select_fastest_backend` (`routing.py` lines 114-137). -/
def select_fastest_backend (overall_health : OverallHealth) : Option String :=
  match overall_health.go_backend, overall_health.baileys_backend with
  | some go_backend, some baileys_backend =>
      let go_ok := availableStatus go_backend.status
      let baileys_ok := availableStatus baileys_backend.status
      if go_ok && baileys_ok then
        if go_backend.response_time_ms < baileys_backend.response_time_ms then
          some "go"
        else
          some "baileys"
      else none
  | _, _ => none

/-- The strategy dispatch of `Router.select_backend` (`routing.py` lines 168-195),
applied to a freshly computed `OverallHealth` snapshot. -/
def apply_strategy (strategy : RoutingStrategy) (overall_health : OverallHealth)
    (st : RouterState) : Option String × RouterState :=
  let available_backends := overall_health.available_backends
  match strategy with
  | .PRIMARY_ONLY =>
      (if overall_health.primary_backend ≠ "none" then some overall_health.primary_backend
       else none, st)
  | .PREFER_GO =>
      (select_with_preference "go" "baileys" available_backends, st)
  | .PREFER_BAILEYS =>
      (select_with_preference "baileys" "go" available_backends, st)
  | .ROUND_ROBIN =>
      if available_backends.isEmpty then (none, st)
      else
        let counter := st.round_robin_counter + 1
        (available_backends[counter % available_backends.length]?,
         { st with round_robin_counter := counter })
  | .FASTEST =>
      match select_fastest_backend overall_health with
      | some fastest => (some fastest, st)
      | none => (select_with_preference "go" "baileys" available_backends, st)

/-- `Router.select_backend` (`routing.py` lines 139-195): honour a pinned
`required_backend` via a fresh availability probe, otherwise look up the
operation's strategy and apply it to a fresh `check_all` snapshot. -/
def select_backend (env : Env) (op : OperationType) (required_backend : Option String)
    (st : RouterState) : Option String × RouterState :=
  match required_backend with
  | some rb =>
      let a := is_backend_available env st.monitor rb
      (if a.1 then some rb else none, { st with monitor := a.2 })
  | none =>
      let strategy := operation_strategies op
      let c := check_all env st.monitor
      apply_strategy strategy c.1 { st with monitor := c.2 }

/-- Model of a Python callable handed to the router: calling it either returns a
value or raises an exception whose stringified message is carried. -/
inductive FuncResult (α : Type) where
  | returns (a : α)
  | raises (msg : String)
deriving Repr, DecidableEq

/-- Second component of the `(bool, Any)` pair returned by the routing entry points:
either a value produced by a backend function or an error string. -/
inductive RouteValue (α : Type) where
  | value (a : α)
  | message (s : String)
deriving Repr, DecidableEq

/-- Result of `route_call` / `route_with_fallback`: `ok`/`value` mirror the returned
`(success, result)` tuple, `state` is the mutated router state, and `calls` is an
instrumentation trace of which backend functions were invoked, in order (needed to
state claims about invocation; not a field of the source's return value). -/
structure RouteOutcome (α : Type) where
  ok : Bool
  value : RouteValue α
  state : RouterState
  calls : List String
deriving Repr, DecidableEq

/-- `Router.route_call` (`routing.py` lines 197-245). -/
def route_call {α : Type} (env : Env) (op : OperationType) (go_func : FuncResult α)
    (baileys_func : Option (FuncResult α)) (required_backend : Option String)
    (st : RouterState) : RouteOutcome α :=
  let s := select_backend env op required_backend st
  match s.1 with
  | none => ⟨false, .message "No backend available", s.2, []⟩
  | some backend =>
      if backend = "go" then
        match go_func with
        | .returns a => ⟨true, .value a, s.2, ["go"]⟩
        | .raises m => ⟨false, .message m, s.2, ["go"]⟩
      else if backend = "baileys" then
        match baileys_func with
        | none =>
            ⟨false, .message "Baileys backend not supported for this operation", s.2, []⟩
        | some (.returns a) => ⟨true, .value a, s.2, ["baileys"]⟩
        | some (.raises m) => ⟨false, .message m, s.2, ["baileys"]⟩
      else
        ⟨false, .message ("Unknown backend: " ++ backend), s.2, []⟩

/-- `Router.route_with_fallback` (`routing.py` lines 247-300): attempt the
strategy-selected backend pinned, and on failure retry once pinned to the first
currently available backend that differs from it. -/
def route_with_fallback {α : Type} (env : Env) (op : OperationType)
    (go_func : FuncResult α) (baileys_func : Option (FuncResult α))
    (st : RouterState) : RouteOutcome α :=
  let s := select_backend env op none st
  match s.1 with
  | none => ⟨false, .message "No backend available", s.2, []⟩
  | some primary_backend =>
      let r1 := route_call env op go_func baileys_func (some primary_backend) s.2
      if r1.ok then r1
      else
        let c := check_all env r1.state.monitor
        let st2 : RouterState := { r1.state with monitor := c.2 }
        match c.1.available_backends.find? (fun b => b != primary_backend) with
        | none => ⟨false, r1.value, st2, r1.calls⟩
        | some fallback_backend =>
            let r2 := route_call env op go_func baileys_func (some fallback_backend) st2
            ⟨r2.ok, r2.value, r2.state, r1.calls ++ r2.calls⟩

/-- A message row fetched from the Baileys temp store (`sync.py`
`_fetch_baileys_messages`): `id` and `timestamp` are accessed with mandatory
indexing (`msg["id"]`, `msg["timestamp"]`), the remaining keys with `.get`. -/
structure BaileysMessage where
  id : String
  sender : Option String := none
  content : Option String := none
  timestamp : Int
  is_from_me : Option Bool := none
deriving Repr, DecidableEq

/-- A message row as posted to the primary-store batch endpoint (`sync.py`
`_insert_to_go_db`, the `go_messages` transformation). -/
structure GoMessage where
  id : String
  chat_jid : String
  sender : Option String
  content : Option String
  timestamp : Int
  is_from_me : Bool
  sync_source : String
deriving Repr, DecidableEq

/-- The per-message transformation of `_insert_to_go_db` (`sync.py` lines 293-304). -/
def toGoMessage (chat_jid : String) (msg : BaileysMessage) : GoMessage :=
  { id := msg.id
    chat_jid := chat_jid
    sender := msg.sender
    content := msg.content
    timestamp := msg.timestamp
    is_from_me := msg.is_from_me.getD false
    sync_source := "baileys" }

/-- Modelled from the spec: outcome of the primary-store duplicate lookup performed
by `_get_existing_message_ids` (`sync.py` lines 244-267).  The in-tree Python body
is an explicit placeholder (`return set()` with a TODO) because the Go-bridge
duplicate-check endpoint it documents (`POST /messages/check-duplicates`) is not in
the repository; per the spec, the lookup reports "which fetched message ids already
exist in the primary store", and may itself fail (the exception path of
`_deduplicate_messages`). -/
inductive DedupLookup where
  | found (existing_ids : List String)
  | failure (msg : String)
deriving Repr, DecidableEq

/-- The literal in-tree placeholder body of `_get_existing_message_ids`
(`sync.py` line 267): it always reports no duplicates. -/
def get_existing_message_ids_placeholder (_chat_jid : String)
    (_message_ids : List String) : List String := []

/-- `DatabaseSyncService._deduplicate_messages` (`sync.py` lines 201-242),
parameterised by the lookup outcome: on lookup failure the full batch is kept
("safer to have duplicates than miss messages"); otherwise messages whose id is in
the reported existing set are dropped and counted. -/
def deduplicate_messages (messages : List BaileysMessage) (lookup : DedupLookup) :
    List BaileysMessage × Nat :=
  if messages.isEmpty then ([], 0)
  else
    match lookup with
    | .failure _ => (messages, 0)
    | .found existing_ids =>
        let deduplicated := messages.filter (fun msg => !(existing_ids.contains msg.id))
        (deduplicated, messages.length - deduplicated.length)

/-- Outcome of the batch-insert HTTP POST issued by `_insert_to_go_db`: a successful
response whose JSON body optionally carries `inserted_count` (absent key means the
`result.get("inserted_count", len(messages))` default applies), or a raised
`RequestException`. -/
inductive InsertOutcome where
  | ok (inserted_count : Option Nat)
  | failure (msg : String)
deriving Repr, DecidableEq

/-- `DatabaseSyncService._insert_to_go_db` (`sync.py` lines 269-320).  Returns the
payload posted to the batch endpoint together with the reported inserted count, or
the propagated exception message.  An empty batch issues no request. -/
def insert_to_go_db (chat_jid : String) (messages : List BaileysMessage)
    (outcome : InsertOutcome) : List GoMessage × Except String Nat :=
  if messages.isEmpty then ([], .ok 0)
  else
    let go_messages := messages.map (toGoMessage chat_jid)
    match outcome with
    | .ok c => (go_messages, .ok (c.getD messages.length))
    | .failure m => (go_messages, .error m)

/-- Network environment of one `sync_messages` call: how the fetch from the Baileys
temp store ended, what the duplicate lookup reported, and how the batch insert
ended.  (`_update_checkpoint` and `_clear_baileys_temp_db` are in-tree placeholders
that log and cannot fail, so they need no outcome here.) -/
structure SyncEnv where
  fetch : Except String (List BaileysMessage)
  lookup : DedupLookup
  insert : InsertOutcome
deriving Repr

/-- `SyncResult` (`sync.py` lines 23-31).  Wall-clock timing is environmental and
carried through as the abstract value `0`; the `details` dict is modelled as its
`chat_jid` entry paired with the reported throughput. -/
structure SyncResult where
  success : Bool
  messages_synced : Nat
  messages_deduplicated : Nat
  elapsed_seconds : Rat
  error_message : Option String := none
  details : Option (String × Rat) := none
deriving Repr, DecidableEq

/-- Instrumentation trace of a `sync_messages` call: the payload of the batch-insert
request it issued (empty if none was issued) and whether `_clear_baileys_temp_db`
was invoked. -/
structure SyncEffects where
  posted : List GoMessage := []
  cleared : Bool := false
deriving Repr, DecidableEq

/-- `DatabaseSyncService.sync_messages` (`sync.py` lines 67-166): fetch, dedup,
batch-insert, checkpoint, clear, with the early returns for an empty fetch and for
an all-duplicates batch. -/
def sync_messages (chat_jid : String) (env : SyncEnv) : SyncResult × SyncEffects :=
  match env.fetch with
  | .error e =>
      ({ success := false, messages_synced := 0, messages_deduplicated := 0,
         elapsed_seconds := 0, error_message := some e }, {})
  | .ok messages =>
      if messages.isEmpty then
        ({ success := true, messages_synced := 0, messages_deduplicated := 0,
           elapsed_seconds := 0 }, {})
      else
        let d := deduplicate_messages messages env.lookup
        let total_deduplicated := d.2
        if d.1.isEmpty then
          ({ success := true, messages_synced := 0,
             messages_deduplicated := total_deduplicated, elapsed_seconds := 0 },
           { cleared := true })
        else
          let ins := insert_to_go_db chat_jid d.1 env.insert
          match ins.2 with
          | .error e =>
              ({ success := false, messages_synced := 0,
                 messages_deduplicated := total_deduplicated, elapsed_seconds := 0,
                 error_message := some e }, { posted := ins.1 })
          | .ok inserted_count =>
              ({ success := true, messages_synced := inserted_count,
                 messages_deduplicated := total_deduplicated, elapsed_seconds := 0,
                 details := some (chat_jid, 0) },
               { posted := ins.1, cleared := true })

/-- Concrete environment for witnesses: both backends answer HTTP 200 with an empty
JSON body (status defaults to `ok`), Go in 5 ms and Baileys in 7 ms. -/
def envOkBoth : Env :=
  { goProbe := .response 200 5 (.parsed {})
    baileysProbe := .response 200 7 (.parsed {})
    now := 0 }

/-- Concrete environment for witnesses: both backend probes end in a
connection-refused exception, so neither backend is available. -/
def envBothDown : Env :=
  { goProbe := .connectionRefused
    baileysProbe := .connectionRefused
    now := 0 }

/-- Probe outcomes that can yield a health record with status `"unreachable"`:
either exception path (timeout, connection refused), or an HTTP 200 response whose
parsed body itself carries `status: "unreachable"` (the 200 branch copies the body's
status field verbatim). -/
def unreachableProvenance : ProbeOutcome → Bool
  | .timeout _ => true
  | .connectionRefused => true
  | .response code _ (.parsed b) => code == 200 && b.status == some "unreachable"
  | _ => false

/-- Probe outcomes that can yield a health record with status `"error"`: a non-200
response, a 200 response with an undecodable body, a 200 response whose parsed body
carries `status: "error"`, or a non-timeout non-connection exception. -/
def errorProvenance : ProbeOutcome → Bool
  | .response code _ (.parsed b) => code != 200 || b.status == some "error"
  | .response _ _ (.decodeError _) => true
  | .otherError _ => true
  | _ => false

/-- Probe outcomes in which no HTTP response was parsed because the request raised a
timeout or connection-refused exception. -/
def exceptionPath : ProbeOutcome → Bool
  | .timeout _ => true
  | .connectionRefused => true
  | _ => false

/-- One `Router.select_backend` call under the ROUND_ROBIN strategy: the body of
`select_backend` (`routing.py` lines 161-185) with the strategy lookup resolved to
`RoutingStrategy.ROUND_ROBIN`. -/
def round_robin_select (env : Env) (st : RouterState) : Option String × RouterState :=
  let c := check_all env st.monitor
  apply_strategy .ROUND_ROBIN c.1 { st with monitor := c.2 }

/-- The list of backends chosen by `n` successive ROUND_ROBIN selections on the same
router, threading the mutated router state through. -/
def round_robin_run (env : Env) (st : RouterState) : Nat → List (Option String)
  | 0 => []
  | n + 1 =>
      let r := round_robin_select env st
      r.1 :: round_robin_run env r.2 n

/-- Concrete environment for witnesses: both backends healthy with identical
response times (9 ms each). -/
def envTie : Env :=
  { goProbe := .response 200 9 (.parsed {})
    baileysProbe := .response 200 9 (.parsed {})
    now := 0 }

theorem availableStatus_iff (s : String) :
    availableStatus s = true ↔ s = "ok" ∨ s = "degraded" := by
  simp [availableStatus]

theorem check_go_health_fst (st : MonitorState) (p : ProbeOutcome) (now : Nat) :
    (check_go_health st p now).1 = (check_go_health {} p now).1 := by
  cases p with
  | response code t body =>
      cases body <;> by_cases h : code = 200 <;> simp [check_go_health, h]
  | timeout t => rfl
  | connectionRefused => rfl
  | otherError m => rfl

theorem check_baileys_health_fst (st : MonitorState) (p : ProbeOutcome) (now : Nat) :
    (check_baileys_health st p now).1 = (check_baileys_health {} p now).1 := by
  cases p with
  | response code t body =>
      cases body <;> by_cases h : code = 200 <;> simp [check_baileys_health, h]
  | timeout t => rfl
  | connectionRefused => rfl
  | otherError m => rfl

theorem check_all_go_backend (env : Env) (st : MonitorState) :
    (check_all env st).1.go_backend = some (goHealth env) := by
  unfold check_all goHealth
  simp only [check_go_health_fst]

theorem check_all_baileys_backend (env : Env) (st : MonitorState) :
    (check_all env st).1.baileys_backend = some (baileysHealth env) := by
  unfold check_all baileysHealth
  simp only [check_baileys_health_fst]

theorem check_all_available_backends (env : Env) (st : MonitorState) :
    (check_all env st).1.available_backends =
      (if availableStatus (goStatus env) then ["go"] else []) ++
      (if availableStatus (baileysStatus env) then ["baileys"] else []) := by
  unfold check_all goStatus baileysStatus goHealth baileysHealth
  simp only [check_go_health_fst, check_baileys_health_fst]
  by_cases hg : availableStatus (check_go_health {} env.goProbe env.now).1.status <;>
    by_cases hb : availableStatus (check_baileys_health {} env.baileysProbe env.now).1.status <;>
      simp [hg, hb]

theorem check_all_primary_backend (env : Env) (st : MonitorState) :
    (check_all env st).1.primary_backend =
      (if availableStatus (goStatus env) then "go"
       else if availableStatus (baileysStatus env) then "baileys"
       else "none") := by
  unfold check_all goStatus baileysStatus goHealth baileysHealth
  simp only [check_go_health_fst, check_baileys_health_fst]
  by_cases hg : availableStatus (check_go_health {} env.goProbe env.now).1.status <;>
    by_cases hb : availableStatus (check_baileys_health {} env.baileysProbe env.now).1.status <;>
      simp [hg, hb]

theorem check_all_status_eq (env : Env) (st : MonitorState) :
    (check_all env st).1.status =
      (if availableStatus (goStatus env) && availableStatus (baileysStatus env) then "ok"
       else if availableStatus (goStatus env) || availableStatus (baileysStatus env) then
         "degraded"
       else "error") := by
  unfold check_all goStatus baileysStatus goHealth baileysHealth
  simp only [check_go_health_fst, check_baileys_health_fst]
  by_cases hg : availableStatus (check_go_health {} env.goProbe env.now).1.status <;>
    by_cases hb : availableStatus (check_baileys_health {} env.baileysProbe env.now).1.status <;>
      simp [hg, hb]

/-- C1: for every environment and monitor state, `HealthMonitor.check_all` returns an
`OverallHealth` whose status is `"ok"` iff both backends' status is in
`{ok, degraded}`, `"degraded"` iff exactly one is, and `"error"` iff neither is, and
whose `available_backends` is exactly the backends whose status is in
`{ok, degraded}`. -/
theorem check_all_aggregation (env : Env) (st : MonitorState) :
    ((check_all env st).1.status = "ok" ↔
       ((goStatus env = "ok" ∨ goStatus env = "degraded") ∧
        (baileysStatus env = "ok" ∨ baileysStatus env = "degraded"))) ∧
    ((check_all env st).1.status = "degraded" ↔
       (((goStatus env = "ok" ∨ goStatus env = "degraded") ∧
         ¬(baileysStatus env = "ok" ∨ baileysStatus env = "degraded")) ∨
        (¬(goStatus env = "ok" ∨ goStatus env = "degraded") ∧
         (baileysStatus env = "ok" ∨ baileysStatus env = "degraded")))) ∧
    ((check_all env st).1.status = "error" ↔
       (¬(goStatus env = "ok" ∨ goStatus env = "degraded") ∧
        ¬(baileysStatus env = "ok" ∨ baileysStatus env = "degraded"))) ∧
    ((check_all env st).1.available_backends =
       (if goStatus env = "ok" ∨ goStatus env = "degraded" then ["go"] else []) ++
       (if baileysStatus env = "ok" ∨ baileysStatus env = "degraded" then ["baileys"]
        else [])) := by
  rw [check_all_status_eq, check_all_available_backends]
  simp only [← availableStatus_iff]
  by_cases hg : availableStatus (goStatus env) <;>
    by_cases hb : availableStatus (baileysStatus env) <;>
      simp [hg, hb]

/-- C8 counterexample: an HTTP 200 response whose parsed body carries
`status: "unreachable"` yields a `BackendHealth` with status `"unreachable"`
although the probe did not end in a timeout or connection-refused exception — the
record came from a parsed HTTP response. -/
theorem health_unreachable_from_body_counterexample :
    (check_go_health {}
        (.response 200 0 (.parsed { status := some "unreachable" })) 0).1.status
      = "unreachable" ∧
    exceptionPath (.response 200 0 (.parsed { status := some "unreachable" })) = false := by
  decide

/-- C8 (amended): a health check's record has status `"unreachable"` iff the probe
ended in a timeout or connection-refused exception, or received a 200 response whose
parsed body itself carries status `"unreachable"`; it has status `"error"` iff the
probe received a non-200 response, a 200 response with an undecodable body, a 200
response whose parsed body carries status `"error"`, or raised some other
exception. -/
theorem health_status_provenance (st : MonitorState) (probe : ProbeOutcome) (now : Nat) :
    ((check_go_health st probe now).1.status = "unreachable" ↔
       unreachableProvenance probe = true) ∧
    ((check_go_health st probe now).1.status = "error" ↔
       errorProvenance probe = true) ∧
    ((check_baileys_health st probe now).1.status = "unreachable" ↔
       unreachableProvenance probe = true) ∧
    ((check_baileys_health st probe now).1.status = "error" ↔
       errorProvenance probe = true) := by
  cases probe with
  | response code t body =>
      cases body with
      | parsed b =>
          by_cases h : code = 200
          · subst h
            cases hs : b.status with
            | none =>
                simp [check_go_health, check_baileys_health, unreachableProvenance,
                  errorProvenance, hs]
            | some s =>
                simp [check_go_health, check_baileys_health, unreachableProvenance,
                  errorProvenance, hs]
          · simp [check_go_health, check_baileys_health, unreachableProvenance,
              errorProvenance, h]
      | decodeError m =>
          by_cases h : code = 200 <;>
            simp [check_go_health, check_baileys_health, unreachableProvenance,
              errorProvenance, h]
  | timeout t =>
      simp [check_go_health, check_baileys_health, unreachableProvenance, errorProvenance]
  | connectionRefused =>
      simp [check_go_health, check_baileys_health, unreachableProvenance, errorProvenance]
  | otherError m =>
      simp [check_go_health, check_baileys_health, unreachableProvenance, errorProvenance]

/-- C9: every health probe that receives an HTTP 200 response with a parseable body
resets that backend's failure counter to zero and overwrites the last-known-health
cache with the new record, regardless of the status field carried in the body (the
body `b` is universally quantified, so bodies reporting `"error"` or
`"unreachable"` are covered). -/
theorem health_200_resets_counter_and_cache (st : MonitorState) (t : Rat)
    (b : HealthBody) (now : Nat) :
    (check_go_health st (.response 200 t (.parsed b)) now).2.go_failure_count = 0 ∧
    (check_go_health st (.response 200 t (.parsed b)) now).2.last_go_health
      = some (check_go_health st (.response 200 t (.parsed b)) now).1 ∧
    (check_baileys_health st (.response 200 t (.parsed b)) now).2.baileys_failure_count
      = 0 ∧
    (check_baileys_health st (.response 200 t (.parsed b)) now).2.last_baileys_health
      = some (check_baileys_health st (.response 200 t (.parsed b)) now).1 :=
  ⟨rfl, rfl, rfl, rfl⟩

/-- C4: `Router.route_call` is total (it never throws) and returns `(true, result)`
when the selected backend's function returns `result`; `(false, "No backend
available")` when backend selection fails; `(false, "Baileys backend not supported
for this operation")` when baileys is selected but no baileys function was supplied;
and `(false, stringified exception)` when the invoked function raises.  The `calls`
trace additionally shows which function was invoked in each case. -/
theorem route_call_cases {α : Type} (env : Env) (op : OperationType)
    (go_func : FuncResult α) (baileys_func : Option (FuncResult α))
    (required_backend : Option String) (st : RouterState) :
    ((select_backend env op required_backend st).1 = none →
       (route_call env op go_func baileys_func required_backend st).ok = false ∧
       (route_call env op go_func baileys_func required_backend st).value
         = .message "No backend available" ∧
       (route_call env op go_func baileys_func required_backend st).calls = []) ∧
    (∀ a, (select_backend env op required_backend st).1 = some "go" →
       go_func = .returns a →
       (route_call env op go_func baileys_func required_backend st).ok = true ∧
       (route_call env op go_func baileys_func required_backend st).value = .value a ∧
       (route_call env op go_func baileys_func required_backend st).calls = ["go"]) ∧
    (∀ m, (select_backend env op required_backend st).1 = some "go" →
       go_func = .raises m →
       (route_call env op go_func baileys_func required_backend st).ok = false ∧
       (route_call env op go_func baileys_func required_backend st).value = .message m ∧
       (route_call env op go_func baileys_func required_backend st).calls = ["go"]) ∧
    ((select_backend env op required_backend st).1 = some "baileys" →
       baileys_func = none →
       (route_call env op go_func baileys_func required_backend st).ok = false ∧
       (route_call env op go_func baileys_func required_backend st).value
         = .message "Baileys backend not supported for this operation" ∧
       (route_call env op go_func baileys_func required_backend st).calls = []) ∧
    (∀ a, (select_backend env op required_backend st).1 = some "baileys" →
       baileys_func = some (.returns a) →
       (route_call env op go_func baileys_func required_backend st).ok = true ∧
       (route_call env op go_func baileys_func required_backend st).value = .value a ∧
       (route_call env op go_func baileys_func required_backend st).calls
         = ["baileys"]) ∧
    (∀ m, (select_backend env op required_backend st).1 = some "baileys" →
       baileys_func = some (.raises m) →
       (route_call env op go_func baileys_func required_backend st).ok = false ∧
       (route_call env op go_func baileys_func required_backend st).value = .message m ∧
       (route_call env op go_func baileys_func required_backend st).calls
         = ["baileys"]) := by
  refine ⟨fun h => by simp [route_call, h], fun a h hf => ?_, fun m h hf => ?_,
    fun h hf => ?_, fun a h hf => ?_, fun m h hf => ?_⟩ <;>
  · subst hf
    simp [route_call, h]

/-- C4 witness: with both backends healthy the selection is `"go"`, and `route_call`
with a Go function returning `7` yields `(true, 7)` having invoked exactly the Go
function. -/
theorem route_call_cases_witness :
    (select_backend envOkBoth .SEND_MESSAGE none {}).1 = some "go" ∧
    (route_call envOkBoth .SEND_MESSAGE (FuncResult.returns (7 : Nat)) none none {}).ok
      = true ∧
    (route_call envOkBoth .SEND_MESSAGE (FuncResult.returns (7 : Nat)) none none {}).value
      = .value 7 ∧
    (route_call envOkBoth .SEND_MESSAGE (FuncResult.returns (7 : Nat)) none none {}).calls
      = ["go"] := by
  have h := (route_call_cases (α := Nat) envOkBoth .SEND_MESSAGE (.returns 7) none none
      {}).2.1 7 (by decide) rfl
  exact ⟨by decide, h.1, h.2.1, h.2.2⟩

/-- C5: whenever both backends are down (neither status is in `{ok, degraded}`),
backend selection returns `none` for every strategy and every operation type, and
`route_call` returns `(false, "No backend available")` without invoking either
supplied backend function (empty call trace). -/
theorem both_down_no_backend {α : Type} (env : Env)
    (hg : availableStatus (goStatus env) = false)
    (hb : availableStatus (baileysStatus env) = false) :
    (∀ (strategy : RoutingStrategy) (m : MonitorState) (st : RouterState),
       (apply_strategy strategy ((check_all env m).1) st).1 = none) ∧
    (∀ (op : OperationType) (st : RouterState),
       (select_backend env op none st).1 = none) ∧
    (∀ (op : OperationType) (go_func : FuncResult α)
       (baileys_func : Option (FuncResult α)) (st : RouterState),
       (route_call env op go_func baileys_func none st).ok = false ∧
       (route_call env op go_func baileys_func none st).value
         = .message "No backend available" ∧
       (route_call env op go_func baileys_func none st).calls = []) := by
  have havail : ∀ m : MonitorState, (check_all env m).1.available_backends = [] := by
    intro m
    rw [check_all_available_backends]
    simp [hg, hb]
  have hprim : ∀ m : MonitorState, (check_all env m).1.primary_backend = "none" := by
    intro m
    rw [check_all_primary_backend]
    simp [hg, hb]
  have happly : ∀ (strategy : RoutingStrategy) (m : MonitorState) (st : RouterState),
      (apply_strategy strategy ((check_all env m).1) st).1 = none := by
    intro strategy m st
    cases strategy with
    | PRIMARY_ONLY => simp [apply_strategy, hprim m]
    | PREFER_GO => simp [apply_strategy, select_with_preference, havail m]
    | PREFER_BAILEYS => simp [apply_strategy, select_with_preference, havail m]
    | ROUND_ROBIN => simp [apply_strategy, havail m]
    | FASTEST =>
        have hg' : availableStatus (goHealth env).status = false := hg
        have hb' : availableStatus (baileysHealth env).status = false := hb
        simp [apply_strategy, select_fastest_backend, check_all_go_backend,
          check_all_baileys_backend, hg', hb', select_with_preference, havail m]
  have hsel : ∀ (op : OperationType) (st : RouterState),
      (select_backend env op none st).1 = none := by
    intro op st
    simp only [select_backend]
    exact happly _ _ _
  refine ⟨happly, hsel, fun op gf bf st => ?_⟩
  simp [route_call, hsel op st]

/-- C5 witness: with both probes ending in connection-refused exceptions, selection
fails and `route_call` reports no backend available with an empty call trace. -/
theorem both_down_no_backend_witness :
    (select_backend envBothDown .SEND_MESSAGE none {}).1 = none ∧
    (route_call envBothDown .SEND_MESSAGE (FuncResult.returns (0 : Nat)) none none
        {}).ok = false ∧
    (route_call envBothDown .SEND_MESSAGE (FuncResult.returns (0 : Nat)) none none
        {}).value = .message "No backend available" ∧
    (route_call envBothDown .SEND_MESSAGE (FuncResult.returns (0 : Nat)) none none
        {}).calls = [] := by
  have h := both_down_no_backend (α := Nat) envBothDown (by decide) (by decide)
  have h3 := h.2.2 .SEND_MESSAGE (.returns 0) none {}
  exact ⟨h.2.1 .SEND_MESSAGE {}, h3.1, h3.2.1, h3.2.2⟩

theorem goHealth_status (env : Env) : (goHealth env).status = goStatus env := rfl

theorem baileysHealth_status (env : Env) :
    (baileysHealth env).status = baileysStatus env := rfl

theorem check_all_available_both (env : Env)
    (hg : availableStatus (goStatus env) = true)
    (hb : availableStatus (baileysStatus env) = true) (m : MonitorState) :
    (check_all env m).1.available_backends = ["go", "baileys"] := by
  rw [check_all_available_backends]
  simp [hg, hb]

theorem select_required_go (env : Env)
    (hg : availableStatus (goStatus env) = true) (op : OperationType)
    (st : RouterState) :
    (select_backend env op (some "go") st).1 = some "go" := by
  have hg' : availableStatus (check_go_health {} env.goProbe env.now).1.status = true := hg
  simp [select_backend, is_backend_available, check_go_health_fst, hg']

theorem select_required_baileys (env : Env)
    (hb : availableStatus (baileysStatus env) = true) (op : OperationType)
    (st : RouterState) :
    (select_backend env op (some "baileys") st).1 = some "baileys" := by
  have hb' : availableStatus (check_baileys_health {} env.baileysProbe env.now).1.status
      = true := hb
  simp [select_backend, is_backend_available, check_baileys_health_fst, hb']

theorem route_call_req_go_raises {α : Type} (env : Env)
    (hg : availableStatus (goStatus env) = true) (op : OperationType) (msg : String)
    (bf : Option (FuncResult α)) (st : RouterState) :
    (route_call env op (.raises msg) bf (some "go") st).ok = false ∧
    (route_call env op (.raises msg) bf (some "go") st).value = .message msg ∧
    (route_call env op (.raises msg) bf (some "go") st).calls = ["go"] := by
  simp [route_call, select_required_go env hg op st]

theorem route_call_req_go_returns {α : Type} (env : Env)
    (hg : availableStatus (goStatus env) = true) (op : OperationType) (a : α)
    (bf : Option (FuncResult α)) (st : RouterState) :
    (route_call env op (.returns a) bf (some "go") st).ok = true ∧
    (route_call env op (.returns a) bf (some "go") st).value = .value a ∧
    (route_call env op (.returns a) bf (some "go") st).calls = ["go"] := by
  simp [route_call, select_required_go env hg op st]

theorem route_call_req_baileys_raises {α : Type} (env : Env)
    (hb : availableStatus (baileysStatus env) = true) (op : OperationType)
    (msg : String) (gf : FuncResult α) (st : RouterState) :
    (route_call env op gf (some (.raises msg)) (some "baileys") st).ok = false ∧
    (route_call env op gf (some (.raises msg)) (some "baileys") st).value
      = .message msg ∧
    (route_call env op gf (some (.raises msg)) (some "baileys") st).calls
      = ["baileys"] := by
  simp [route_call, select_required_baileys env hb op st]

theorem route_call_req_baileys_returns {α : Type} (env : Env)
    (hb : availableStatus (baileysStatus env) = true) (op : OperationType) (a : α)
    (gf : FuncResult α) (st : RouterState) :
    (route_call env op gf (some (.returns a)) (some "baileys") st).ok = true ∧
    (route_call env op gf (some (.returns a)) (some "baileys") st).value = .value a ∧
    (route_call env op gf (some (.returns a)) (some "baileys") st).calls
      = ["baileys"] := by
  simp [route_call, select_required_baileys env hb op st]

theorem select_both_avail (env : Env)
    (hg : availableStatus (goStatus env) = true)
    (hb : availableStatus (baileysStatus env) = true) (op : OperationType)
    (st : RouterState) :
    (select_backend env op none st).1 = some "go" ∨
    (select_backend env op none st).1 = some "baileys" := by
  cases op <;>
    simp [select_backend, operation_strategies, apply_strategy, select_with_preference,
      check_all_available_both env hg hb]

/-- C6: with both backends available, if `route_with_fallback` is invoked with the
function of the strategy-selected backend `b` always raising and the other backend's
function always succeeding, it returns `(true, the secondary result)`, and the
primary function was invoked exactly once before the secondary one (call trace
`[b, other]`). -/
theorem route_with_fallback_primary_raises {α : Type} (env : Env) (op : OperationType)
    (st : RouterState) (a : α) (msg : String) (b : String)
    (hg : availableStatus (goStatus env) = true)
    (hb : availableStatus (baileysStatus env) = true)
    (hsel : (select_backend env op none st).1 = some b) :
    (route_with_fallback env op (if b = "go" then .raises msg else .returns a)
        (some (if b = "baileys" then .raises msg else .returns a)) st).ok = true ∧
    (route_with_fallback env op (if b = "go" then .raises msg else .returns a)
        (some (if b = "baileys" then .raises msg else .returns a)) st).value
      = .value a ∧
    (route_with_fallback env op (if b = "go" then .raises msg else .returns a)
        (some (if b = "baileys" then .raises msg else .returns a)) st).calls
      = [b, if b = "go" then "baileys" else "go"] := by
  rcases select_both_avail env hg hb op st with hgo | hbai
  · rw [hsel] at hgo
    injection hgo with hb'
    subst hb'
    have h1 := route_call_req_go_raises (α := α) env hg op msg
      (some (.returns a)) (select_backend env op none st).2
    have h2 := fun st' => route_call_req_baileys_returns (α := α) env hb op a
      (.raises msg) st'
    simp only [route_with_fallback, hsel, if_pos rfl]
    rw [if_neg (by decide : ¬("go" : String) = "baileys")]
    simp only [h1.1, h1.2.1, h1.2.2, Bool.false_eq_true, if_false,
      check_all_available_both env hg hb]
    simp [List.find?, h1.1, h1.2.2, (h2 _).1, (h2 _).2.1, (h2 _).2.2]
  · rw [hsel] at hbai
    injection hbai with hb'
    subst hb'
    have h1 := route_call_req_baileys_raises (α := α) env hb op msg
      (.returns a) (select_backend env op none st).2
    have h2 := fun st' => route_call_req_go_returns (α := α) env hg op a
      (some (.raises msg)) st'
    simp only [route_with_fallback, hsel, if_pos rfl]
    rw [if_neg (by decide : ¬("baileys" : String) = "go")]
    simp only [h1.1, h1.2.1, h1.2.2, Bool.false_eq_true, if_false,
      check_all_available_both env hg hb]
    simp [List.find?, h1.1, h1.2.2, (h2 _).1, (h2 _).2.1, (h2 _).2.2]

/-- C6 witness: with both backends healthy and operation SEND_MESSAGE (selected
backend "go"), a raising Go function plus a succeeding Baileys function yields
`(true, 5)` with call trace `["go", "baileys"]`. -/
theorem route_with_fallback_primary_raises_witness :
    (route_with_fallback envOkBoth .SEND_MESSAGE (FuncResult.raises "boom")
        (some (FuncResult.returns (5 : Nat))) {}).ok = true ∧
    (route_with_fallback envOkBoth .SEND_MESSAGE (FuncResult.raises "boom")
        (some (FuncResult.returns (5 : Nat))) {}).value = .value 5 ∧
    (route_with_fallback envOkBoth .SEND_MESSAGE (FuncResult.raises "boom")
        (some (FuncResult.returns (5 : Nat))) {}).calls = ["go", "baileys"] := by
  have h := route_with_fallback_primary_raises (α := Nat) envOkBoth .SEND_MESSAGE {}
      5 "boom" "go" (by decide) (by decide) (by decide)
  simpa using h

/-- C7: under the FASTEST strategy, when both backends are available the backend
with the strictly lower `response_time_ms` is selected, and with equal times the
strict less-than comparison falls through to `"baileys"`; when exactly one or
neither backend is available, PREFER_GO semantics apply (go if available, else
baileys if available, else none). -/
theorem fastest_strategy_behaviour (env : Env) (m : MonitorState) (st : RouterState) :
    ((apply_strategy .FASTEST ((check_all env m).1) st).1 =
       (if availableStatus (goStatus env) && availableStatus (baileysStatus env) then
          (if (goHealth env).response_time_ms < (baileysHealth env).response_time_ms
           then some "go" else some "baileys")
        else if availableStatus (goStatus env) then some "go"
        else if availableStatus (baileysStatus env) then some "baileys"
        else none)) ∧
    (availableStatus (goStatus env) = true →
     availableStatus (baileysStatus env) = true →
     (goHealth env).response_time_ms = (baileysHealth env).response_time_ms →
     (apply_strategy .FASTEST ((check_all env m).1) st).1 = some "baileys") := by
  have h1 : (apply_strategy .FASTEST ((check_all env m).1) st).1 =
      (if availableStatus (goStatus env) && availableStatus (baileysStatus env) then
         (if (goHealth env).response_time_ms < (baileysHealth env).response_time_ms
          then some "go" else some "baileys")
       else if availableStatus (goStatus env) then some "go"
       else if availableStatus (baileysStatus env) then some "baileys"
       else none) := by
    by_cases hg : availableStatus (goStatus env) <;>
      by_cases hb : availableStatus (baileysStatus env) <;>
        simp [apply_strategy, select_fastest_backend, check_all_go_backend,
          check_all_baileys_backend, goHealth_status, baileysHealth_status,
          select_with_preference, check_all_available_backends, hg, hb]
    by_cases ht : (goHealth env).response_time_ms < (baileysHealth env).response_time_ms <;>
      simp [ht]
  refine ⟨h1, fun hg hb he => ?_⟩
  rw [h1]
  simp [hg, hb, he]

/-- C7 witness: both backends healthy at identical 9 ms response times; the FASTEST
strategy selects `"baileys"`. -/
theorem fastest_strategy_behaviour_witness :
    (apply_strategy .FASTEST ((check_all envTie {}).1) {}).1 = some "baileys" :=
  (fastest_strategy_behaviour envTie {} {}).2 (by decide) (by decide) (by decide)

theorem round_robin_select_both (env : Env)
    (hg : availableStatus (goStatus env) = true)
    (hb : availableStatus (baileysStatus env) = true) (st : RouterState) :
    (round_robin_select env st).1 =
      (if (st.round_robin_counter + 1) % 2 = 1 then some "baileys" else some "go") ∧
    (round_robin_select env st).2.round_robin_counter = st.round_robin_counter + 1 := by
  constructor
  · simp only [round_robin_select, apply_strategy, check_all_available_both env hg hb]
    by_cases hm : (st.round_robin_counter + 1) % 2 = 1
    · simp [hm]
    · have hm0 : (st.round_robin_counter + 1) % 2 = 0 := by omega
      simp [hm, hm0]
  · simp only [round_robin_select, apply_strategy, check_all_available_both env hg hb]
    simp

/-- C10: on a freshly constructed router (`round_robin_counter = 0`) with both
backends staying available (available list `["go", "baileys"]` on every check), the
first ROUND_ROBIN selection returns `"baileys"` (the counter is incremented before
indexing) and successive selections alternate baileys, go, baileys, go, ... -/
theorem round_robin_alternates (env : Env)
    (hg : availableStatus (goStatus env) = true)
    (hb : availableStatus (baileysStatus env) = true) (n : Nat) :
    round_robin_run env {} n =
      (List.range n).map
        (fun k => if k % 2 = 0 then some "baileys" else some "go") := by
  have gen : ∀ (n : Nat) (st : RouterState),
      round_robin_run env st n =
        (List.range n).map
          (fun k => if (st.round_robin_counter + k) % 2 = 0 then some "baileys"
                    else some "go") := by
    intro n
    induction n with
    | zero => intro st; rfl
    | succ n ih =>
        intro st
        have hsel := round_robin_select_both env hg hb st
        simp only [round_robin_run]
        rw [hsel.1, ih (round_robin_select env st).2, hsel.2]
        rw [List.range_succ_eq_map, List.map_cons, List.map_map]
        congr 1
        · by_cases hp : st.round_robin_counter % 2 = 0
          · have h1 : (st.round_robin_counter + 1) % 2 = 1 := by omega
            simp [h1, hp]
          · have h1 : ¬(st.round_robin_counter + 1) % 2 = 1 := by omega
            simp [h1, hp]
        · apply List.map_congr_left
          intro k _
          simp only [Function.comp_apply]
          have he : st.round_robin_counter + 1 + k = st.round_robin_counter + (k + 1) := by
            omega
          rw [he]
  simpa using gen n {}

/-- C10 witness: with both backends healthy, four successive ROUND_ROBIN selections
from a fresh router give baileys, go, baileys, go. -/
theorem round_robin_alternates_witness :
    round_robin_run envOkBoth {} 4 =
      [some "baileys", some "go", some "baileys", some "go"] := by
  have h := round_robin_alternates envOkBoth (by decide) (by decide) 4
  exact h.trans (by decide)

theorem length_filter_contains_of_nodup (messages : List BaileysMessage)
    (D : List String) (hnd : (messages.map (fun m => m.id)).Nodup) (hDnd : D.Nodup)
    (hsub : D ⊆ messages.map (fun m => m.id)) :
    (messages.filter (fun m => D.contains m.id)).length = D.length := by
  have h1 : (messages.filter (fun m => D.contains m.id)).length
      = ((messages.map (fun m => m.id)).filter (fun x => D.contains x)).length := by
    rw [← List.countP_eq_length_filter, ← List.countP_eq_length_filter, List.countP_map]
    rfl
  rw [h1]
  have hfil : ((messages.map (fun m => m.id)).filter (fun x => D.contains x)).Nodup :=
    hnd.filter _
  rw [← List.toFinset_card_of_nodup hfil, ← List.toFinset_card_of_nodup hDnd]
  congr 1
  rw [List.toFinset_filter]
  ext a
  simp only [Finset.mem_filter, List.mem_toFinset]
  simp only [List.elem_iff]
  exact ⟨fun h => h.2, fun h => ⟨hsub h, h⟩⟩

/-- C3 counterexample: with a fetch returning zero messages, `sync_messages`
returns success with zero synced but does not invoke the secondary-store clear —
the zero-message early return (`sync.py` lines 88-95) skips
`_clear_baileys_temp_db`, so the claim that this path clears the secondary store
is false on the code. -/
theorem sync_empty_fetch_counterexample :
    (sync_messages "chat1@g.us" ⟨.ok [], .found [], .ok none⟩).1.success = true ∧
    (sync_messages "chat1@g.us" ⟨.ok [], .found [], .ok none⟩).1.messages_synced = 0 ∧
    (sync_messages "chat1@g.us" ⟨.ok [], .found [], .ok none⟩).2.cleared = false := by
  decide

/-- C3 (amended): for every chat and every environment whose fetch returns zero
messages, `sync_messages` short-circuits: it returns a `SyncResult` with
success = true, messages_synced = 0 and messages_deduplicated = 0, issues no batch
insert, and does not invoke the secondary-store clear. -/
theorem sync_empty_fetch_short_circuit (chat_jid : String) (lookup : DedupLookup)
    (ins : InsertOutcome) :
    (sync_messages chat_jid ⟨.ok [], lookup, ins⟩).1.success = true ∧
    (sync_messages chat_jid ⟨.ok [], lookup, ins⟩).1.messages_synced = 0 ∧
    (sync_messages chat_jid ⟨.ok [], lookup, ins⟩).1.messages_deduplicated = 0 ∧
    (sync_messages chat_jid ⟨.ok [], lookup, ins⟩).2.posted = [] ∧
    (sync_messages chat_jid ⟨.ok [], lookup, ins⟩).2.cleared = false :=
  ⟨rfl, rfl, rfl, rfl, rfl⟩

/-- C2: for every chat and secondary-store batch with distinct message ids, if the
duplicate lookup reports exactly a duplicate-free set `D` of the fetched message
ids as already existing in the primary store, and the batch insert succeeds (its
response carries no explicit `inserted_count`, so the submitted batch size is
reported), then `sync_messages` reports `messages_synced = |batch| - |D|` and
`messages_deduplicated = |D|`, posting to the insert endpoint exactly the messages
whose ids are not in `D`. -/
theorem sync_dedup_counts (chat_jid : String) (messages : List BaileysMessage)
    (D : List String) (hnd : (messages.map (fun m => m.id)).Nodup) (hDnd : D.Nodup)
    (hsub : D ⊆ messages.map (fun m => m.id)) :
    (sync_messages chat_jid ⟨.ok messages, .found D, .ok none⟩).1.success = true ∧
    (sync_messages chat_jid ⟨.ok messages, .found D, .ok none⟩).1.messages_synced
      = messages.length - D.length ∧
    (sync_messages chat_jid ⟨.ok messages, .found D, .ok none⟩).1.messages_deduplicated
      = D.length ∧
    (sync_messages chat_jid ⟨.ok messages, .found D, .ok none⟩).2.posted
      = (messages.filter (fun m => !(D.contains m.id))).map (toGoMessage chat_jid) := by
  have hp := length_filter_contains_of_nodup messages D hnd hDnd hsub
  have hsplit : messages.length = (messages.filter (fun m => D.contains m.id)).length
      + (messages.filter (fun m => !(D.contains m.id))).length := by
    simpa using List.length_eq_length_filter_add (l := messages)
      (fun m => D.contains m.id)
  by_cases hemp : messages.isEmpty
  · have hmnil : messages = [] := List.isEmpty_iff.mp hemp
    subst hmnil
    have hD : D = [] := List.subset_nil.mp (by simpa using hsub)
    subst hD
    simp [sync_messages]
  · have hd : deduplicate_messages messages (.found D)
        = (messages.filter (fun m => !(D.contains m.id)),
           messages.length - (messages.filter (fun m => !(D.contains m.id))).length) := by
      rw [deduplicate_messages, if_neg hemp]
    by_cases hfe : (messages.filter (fun m => !(D.contains m.id))).isEmpty
    · have hfnil : (messages.filter (fun m => !(D.contains m.id))) = [] :=
        List.isEmpty_iff.mp hfe
      have heval : sync_messages chat_jid ⟨.ok messages, .found D, .ok none⟩
          = ({ success := true, messages_synced := 0,
               messages_deduplicated := messages.length
                 - (messages.filter (fun m => !(D.contains m.id))).length,
               elapsed_seconds := 0 }, { cleared := true }) := by
        simp only [sync_messages, hd]
        rw [if_neg hemp, if_pos hfe]
      rw [heval]
      have hsplit2 : messages.length = D.length := by
        rw [hfnil] at hsplit
        simp only [List.length_nil, Nat.add_zero] at hsplit
        omega
      refine ⟨rfl, ?_, ?_, ?_⟩
      · show 0 = messages.length - D.length
        omega
      · show messages.length
            - (messages.filter (fun m => !(D.contains m.id))).length = D.length
        rw [hfnil]
        simp only [List.length_nil]
        omega
      · show ([] : List GoMessage)
            = (messages.filter (fun m => !(D.contains m.id))).map (toGoMessage chat_jid)
        rw [hfnil]
        rfl
    · have hins : insert_to_go_db chat_jid
          (messages.filter (fun m => !(D.contains m.id))) (.ok none)
          = ((messages.filter (fun m => !(D.contains m.id))).map (toGoMessage chat_jid),
             .ok (messages.filter (fun m => !(D.contains m.id))).length) := by
        rw [insert_to_go_db, if_neg hfe]
        rfl
      have heval : sync_messages chat_jid ⟨.ok messages, .found D, .ok none⟩
          = ({ success := true,
               messages_synced := (messages.filter (fun m => !(D.contains m.id))).length,
               messages_deduplicated := messages.length
                 - (messages.filter (fun m => !(D.contains m.id))).length,
               elapsed_seconds := 0, details := some (chat_jid, 0) },
             { posted := (messages.filter
                 (fun m => !(D.contains m.id))).map (toGoMessage chat_jid),
               cleared := true }) := by
        simp only [sync_messages, hd]
        rw [if_neg hemp, if_neg hfe]
        simp only [hins]
      rw [heval]
      refine ⟨rfl, ?_, ?_, rfl⟩
      · show (messages.filter (fun m => !(D.contains m.id))).length
            = messages.length - D.length
        omega
      · show messages.length
            - (messages.filter (fun m => !(D.contains m.id))).length = D.length
        omega

/-- C2 witness: a three-message batch with ids a, b, c, of which b and c already
exist in the primary store, syncs one message and deduplicates two. -/
theorem sync_dedup_counts_witness :
    (sync_messages "chat1@g.us"
        ⟨.ok [{ id := "a", timestamp := 1 }, { id := "b", timestamp := 2 },
              { id := "c", timestamp := 3 }],
         .found ["b", "c"], .ok none⟩).1.messages_synced = 1 ∧
    (sync_messages "chat1@g.us"
        ⟨.ok [{ id := "a", timestamp := 1 }, { id := "b", timestamp := 2 },
              { id := "c", timestamp := 3 }],
         .found ["b", "c"], .ok none⟩).1.messages_deduplicated = 2 := by
  have h := sync_dedup_counts "chat1@g.us"
    [{ id := "a", timestamp := 1 }, { id := "b", timestamp := 2 },
     { id := "c", timestamp := 3 }] ["b", "c"]
    (by decide) (by decide) (by decide)
  exact ⟨h.2.1.trans rfl, h.2.2.1.trans rfl⟩
